import Mathlib

/-!
Shallow embedding of `irc/socket.go` (package `irc` of the ergo repository):
the per-connection `Socket` type with its `Read`, `Write`, `WriteLine`,
`Close`, `CertFP` operations and the `RunSocketWriter` writer loop.

Go machine details are modelled as follows:
* `string` lengths (`len`) are UTF-8 byte counts, modelled with
  `String.utf8ByteSize`;
* the `sync.Mutex` is modelled by an event trace: each `Lock()` emits
  `Ev.lockAcquire` and each `Unlock()` emits `Ev.lockRelease`; calling
  `Unlock()` while the mutex is not held is a fatal runtime error in Go,
  modelled by the `DrainOutcome.panicked` outcome;
* the detached wake goroutines (`go socket.timedFillLineToSendExists(d)`)
  are recorded as their timeout in milliseconds in a `List Nat` of wake
  attempts; they do not modify socket state;
* `io.EOF` and other read errors are `RErr.eof` and `RErr.other`;
* stream writes performed by the writer loop are recorded as
  `Ev.connWrite` events; `conn.Close()` is the `Ev.connClose` event and
  the `connClosed` flag.
-/

/-- State of a `Socket` (src/irc/socket.go lines 28-39): the `Closed` flag,
the configured `MaxSendQBytes` ceiling, the `FinalData` string, the
`linesToSend` queue, together with a `connClosed` flag recording whether the
underlying `net.Conn` has been released. The `conn`, `reader`,
`lineToSendExists` channel and the mutex are modelled outside the state
(as function arguments and event traces). -/
structure SocketState where
  closed : Bool
  maxSendQBytes : Nat
  finalData : String
  linesToSend : List String
  connClosed : Bool
deriving DecidableEq, Repr

/-- `NewSocket(conn, maxSendQBytes)` (lines 42-49): fresh socket with an
empty queue, not closed, no final data; the connection is open. -/
def newSocket (maxSendQBytes : Nat) : SocketState :=
  { closed := false
    maxSendQBytes := maxSendQBytes
    finalData := ""
    linesToSend := []
    connClosed := false }

/-- Read errors: `io.EOF` or any other error (carried as its message). -/
inductive RErr
  | eof
  | other (msg : String)
deriving DecidableEq, Repr

/-- Events of the writer loop: mutex operations, the queue snapshot/clear,
stream writes, the assignment to `FinalData`, and `conn.Close()`. -/
inductive Ev
  | lockAcquire
  | lockRelease
  | queueCleared
  | connWrite (data : String)
  | setFinal (data : String)
  | connClose
deriving DecidableEq, Repr

def isConnWrite : Ev → Bool
  | Ev.connWrite _ => true
  | _ => false

def isConnClose : Ev → Bool
  | Ev.connClose => true
  | _ => false

def isLockRelease : Ev → Bool
  | Ev.lockRelease => true
  | _ => false

def isLockAcquire : Ev → Bool
  | Ev.lockAcquire => true
  | _ => false

/-- `Close()` (lines 52-60): no-op when already closed; otherwise sets
`Closed` and spawns a 200ms bounded wake attempt (recorded as `[200]`).
It never touches the underlying connection. -/
def socketClose (s : SocketState) : SocketState × List Nat :=
  if s.closed then (s, [])
  else ({ s with closed := true }, [200])

/-- `Write(data)` (lines 115-129): returns `io.EOF` when the socket is
closed, leaving the queue unchanged; otherwise appends `data` to
`linesToSend` under the lock and spawns a 15s (15000ms) bounded wake
attempt. -/
def socketWrite (s : SocketState) (data : String) :
    Option RErr × SocketState × List Nat :=
  if s.closed then (some RErr.eof, s, [])
  else (none, { s with linesToSend := s.linesToSend ++ [data] }, [15000])

/-- `WriteLine(line)` (lines 214-216): `Write(line + "\r\n")`. -/
def socketWriteLine (s : SocketState) (line : String) :
    Option RErr × SocketState × List Nat :=
  socketWrite s (line ++ "\r\n")

/-- The cutset test of `strings.TrimRight(line, "\r\n")`. -/
def crlfCut (c : Char) : Bool := c == '\r' || c == '\n'

/-- `strings.TrimRight(line, "\r\n")`: remove all trailing `'\r'` and
`'\n'` characters. -/
def goTrimRight (s : String) : String :=
  ⟨(s.data.reverse.dropWhile crlfCut).reverse⟩

/-- `unicode.IsSpace` restricted to the code points below U+0100 (the
higher White_Space code points never occur in this byte-oriented
protocol): `'\t'`, `'\n'`, `'\v'`, `'\f'`, `'\r'`, `' '`, U+0085, U+00A0. -/
def goIsSpace (c : Char) : Bool :=
  c == '\t' || c == '\n' || c == '\x0b' || c == '\x0c' || c == '\r' ||
  c == ' ' || c == '\u0085' || c == '\u00A0'

/-- `strings.TrimSpace(line)`: strip leading and trailing whitespace. -/
def goTrimSpace (s : String) : String :=
  ⟨((s.data.dropWhile goIsSpace).reverse.dropWhile goIsSpace).reverse⟩

/-- `Read()` (lines 90-112) given the result `(lineBytes, rerr)` of
`socket.reader.ReadBytes('\n')`: fails immediately with `io.EOF` when
already closed (before touching the reader); on `io.EOF` calls
`socket.Close()`; when the error is `io.EOF` and `TrimSpace(line)` is
non-empty the line is still returned with no error; any other non-nil
error is returned as-is; otherwise the line is returned with trailing
CR/LF stripped. -/
def socketRead (s : SocketState) (lineBytes : String) (rerr : Option RErr) :
    (String × Option RErr) × SocketState :=
  if s.closed then (("", some RErr.eof), s)
  else
    let s1 := if rerr = some RErr.eof then (socketClose s).1 else s
    if rerr = some RErr.eof ∧ goTrimSpace lineBytes ≠ "" then
      ((goTrimRight lineBytes, none), s1)
    else if rerr ≠ none then
      (("", rerr), s1)
    else
      ((goTrimRight lineBytes, none), s1)

/-- `bufio.Reader.ReadBytes('\n')` on a finite stream: split off the
shortest prefix ending in `'\n'`; when the stream holds no `'\n'` the whole
residual is returned together with `io.EOF`. -/
def readSplitNL : List Char → Option (List Char × List Char)
  | [] => none
  | c :: rest =>
    if c = '\n' then some ([c], rest)
    else
      match readSplitNL rest with
      | some (l, r) => some (c :: l, r)
      | none => none

/-- `ReadBytes('\n')` packaged on `String`: returns `(lineBytes, error)`
and the remaining stream content. -/
def readBytesNL (stream : String) : (String × Option RErr) × String :=
  match readSplitNL stream.data with
  | some (l, r) => ((⟨l⟩, none), ⟨r⟩)
  | none => ((stream, some RErr.eof), "")

/-- `Read()` driven by a concrete finite stream (the remaining bytes the
peer will ever send, ending in end-of-stream): the closed check at line 91
happens before the reader is consulted. Returns the `Read` result, the new
socket state, and the remaining stream. -/
def socketReadStream (s : SocketState) (stream : String) :
    (String × Option RErr) × SocketState × String :=
  if s.closed then (("", some RErr.eof), s, stream)
  else
    let p := readBytesNL stream
    let q := socketRead s p.1.1 p.1.2
    (q.1, q.2, p.2)

/-- The sendq scan of lines 163-170: accumulate `uint64(len(line))` over
the queued lines in order, stopping (Go `break`, after unlocking the
mutex) at the first prefix whose sum strictly exceeds `max`; returns the
final value of `sendQBytes`. -/
def sendQScan (max acc : Nat) : List String → Nat
  | [] => acc
  | l :: rest =>
    let acc' := acc + l.utf8ByteSize
    if max < acc' then acc' else sendQScan max acc' rest

/-- Total byte size of the queued lines (the cumulative byte length of the
whole queue). -/
def totalQueuedBytes (q : List String) : Nat :=
  (q.map String.utf8ByteSize).sum

/-- The overflow notice assigned to `FinalData` at line 172. -/
def sendQExceededNotice : String := "\r\nERROR :SendQ Exceeded\r\n"

/-- How one iteration of the writer loop ends. -/
inductive DrainOutcome
  | waitAgain
  | toTeardown
  | panicked
deriving DecidableEq, Repr

/-- One iteration of the `RunSocketWriter` loop body (lines 144-196) after
a wake signal was received, together with the line-193 `errOut || Closed`
re-check. `writeOk` tells whether `conn.Write` succeeds. Paths:
* `Closed` set (line 151): unlock, `break` out of the select, and the
  line-193 check exits the loop towards teardown;
* empty queue (line 157): unlock and `continue` back to waiting;
* sendq breach (lines 162-175): the scan unlocks at the first breaching
  prefix and breaks; the re-check at line 171 is then true, so `FinalData`
  is assigned and the mutex is unlocked a second time — `sync.Mutex.Unlock`
  on an unheld mutex, a fatal runtime error (`panicked`); no teardown runs;
* otherwise (lines 177-191): join the queue into one payload, clear the
  queue, unlock, and issue one `conn.Write` when the payload is non-empty;
  a write error sets `errOut` and the loop exits towards teardown, else
  the line-193 check sees `Closed` still false and the loop waits again. -/
def drainStep (s : SocketState) (writeOk : Bool) :
    DrainOutcome × SocketState × List Ev :=
  if s.closed then
    (DrainOutcome.toTeardown, s, [Ev.lockAcquire, Ev.lockRelease])
  else if s.linesToSend.length < 1 then
    (DrainOutcome.waitAgain, s, [Ev.lockAcquire, Ev.lockRelease])
  else if s.maxSendQBytes < sendQScan s.maxSendQBytes 0 s.linesToSend then
    (DrainOutcome.panicked,
      { s with finalData := sendQExceededNotice },
      [Ev.lockAcquire, Ev.lockRelease, Ev.setFinal sendQExceededNotice,
        Ev.lockRelease])
  else
    let data := String.join s.linesToSend
    let s' := { s with linesToSend := [] }
    if 0 < data.utf8ByteSize then
      if writeOk then
        (DrainOutcome.waitAgain, s',
          [Ev.lockAcquire, Ev.queueCleared, Ev.lockRelease, Ev.connWrite data])
      else
        (DrainOutcome.toTeardown, s',
          [Ev.lockAcquire, Ev.queueCleared, Ev.lockRelease, Ev.connWrite data])
    else
      (DrainOutcome.waitAgain, s',
        [Ev.lockAcquire, Ev.queueCleared, Ev.lockRelease])

/-- The teardown tail of `RunSocketWriter` (lines 198-210): set `Closed`,
write `FinalData` when non-empty (its write error is discarded — the
return value of `conn.Write` at line 203 is ignored), then `conn.Close()`.
The channel-draining loop at lines 208-210 is a no-op because
`lineToSendExists` is unbuffered (`len` is always 0). -/
def teardownStep (s : SocketState) : SocketState × List Ev :=
  ({ s with closed := true, connClosed := true },
    (if 0 < s.finalData.utf8ByteSize then [Ev.connWrite s.finalData] else [])
      ++ [Ev.connClose])

/-- The early-exit prefix scan of lines 163-170 reports a breach exactly
when the total queued byte count (from `acc`) exceeds `max`: the partial
sums are monotone, so some prefix exceeds the ceiling iff the total does. -/
theorem sendQScan_gt_iff (max acc : Nat) (q : List String) :
    max < sendQScan max acc q ↔ max < acc + totalQueuedBytes q := by
  induction q generalizing acc with
  | nil => simp [sendQScan, totalQueuedBytes]
  | cons l rest ih =>
    show max < (if max < acc + l.utf8ByteSize then acc + l.utf8ByteSize
        else sendQScan max (acc + l.utf8ByteSize) rest) ↔ _
    by_cases h : max < acc + l.utf8ByteSize
    · rw [if_pos h]
      simp only [totalQueuedBytes, List.map_cons, List.sum_cons]
      constructor
      · intro _; omega
      · intro _; exact h
    · rw [if_neg h, ih]
      simp only [totalQueuedBytes, List.map_cons, List.sum_cons]
      omega

/-- The concrete state exercising the sendq-breach path: one queued line of
6 bytes against a 5-byte ceiling. -/
def breachState : SocketState :=
  { closed := false
    maxSendQBytes := 5
    finalData := ""
    linesToSend := ["abcdef"]
    connClosed := false }

/-- C1: on a drain whose queued bytes exceed `maxSendQBytes` (queue
`["abcdef"]`, ceiling 5), the code does set `FinalData` to the fixed
overflow notice and writes none of the queued strings, but the iteration
ends in a second `Unlock` of the already-released mutex — a fatal runtime
error — instead of proceeding to teardown, and the socket is not closed. -/
theorem C1_sendq_breach_aborts_without_teardown :
    drainStep breachState true =
      (DrainOutcome.panicked,
        { breachState with finalData := sendQExceededNotice },
        [Ev.lockAcquire, Ev.lockRelease, Ev.setFinal sendQExceededNotice,
          Ev.lockRelease]) ∧
    (drainStep breachState true).2.1.closed = false ∧
    (drainStep breachState true).2.2.countP isConnWrite = 0 := by
  refine ⟨by decide, by decide, by decide⟩

/-- C2: on the sendq-breach path the drain iteration acquires the queue
mutex once but releases it twice (lines 167 and 173), the second release
happening while the mutex is not held, which is fatal at runtime. -/
theorem C2_breach_path_releases_mutex_twice :
    (drainStep breachState true).2.2.countP isLockAcquire = 1 ∧
    (drainStep breachState true).2.2.countP isLockRelease = 2 ∧
    (drainStep breachState true).1 = DrainOutcome.panicked := by
  refine ⟨by decide, by decide, by decide⟩

/-- A drain state whose (non-empty) queue holds a single empty string: the
concatenated payload is empty, so line 184's `0 < len(data)` guard skips
the write. -/
def emptyLineState : SocketState :=
  { closed := false
    maxSendQBytes := 10
    finalData := ""
    linesToSend := [""]
    connClosed := false }

/-- C3 counterexample: with `closed = false` and cumulative queued bytes
(0) within the ceiling, the drain of the queue `[""]` issues no stream
write at all, so it does not issue exactly one stream write as claimed. -/
theorem C3_counterexample_empty_payload_no_write :
    ¬ (drainStep emptyLineState true).2.2.countP isConnWrite = 1 := by
  decide

/-- C3 (amended): on a drain with `closed = false`, a non-empty queue, and
cumulative queued bytes within `maxSendQBytes`, the queue is cleared under
the lock and the loop issues exactly one stream write whose payload is the
concatenation, in append order, of all queued strings — except that when
that concatenation is empty no write is issued at all. -/
theorem C3_drain_writes_single_concatenated_payload
    (s : SocketState) (h1 : s.closed = false) (h2 : s.linesToSend ≠ [])
    (h3 : totalQueuedBytes s.linesToSend ≤ s.maxSendQBytes) :
    drainStep s true =
      (DrainOutcome.waitAgain, { s with linesToSend := [] },
        [Ev.lockAcquire, Ev.queueCleared, Ev.lockRelease] ++
          (if 0 < (String.join s.linesToSend).utf8ByteSize then
            [Ev.connWrite (String.join s.linesToSend)] else [])) := by
  have hlen : ¬ s.linesToSend.length < 1 := by
    have := List.length_pos.mpr h2
    omega
  have hq : ¬ s.maxSendQBytes < sendQScan s.maxSendQBytes 0 s.linesToSend := by
    rw [sendQScan_gt_iff]
    omega
  unfold drainStep
  rw [if_neg (by simp [h1]), if_neg hlen, if_neg hq]
  by_cases hd : 0 < (String.join s.linesToSend).utf8ByteSize
  · simp [hd]
  · simp [hd]

/-- A concrete in-budget drain state: two queued lines totalling 10 bytes
against a 16-byte ceiling. -/
def inBudgetState : SocketState :=
  { closed := false
    maxSendQBytes := 16
    finalData := ""
    linesToSend := ["PING", " :hi\r\n"]
    connClosed := false }

/-- C3 witness: the amended drain property at the concrete state
`inBudgetState`. -/
theorem C3_drain_writes_single_concatenated_payload_witness :
    drainStep inBudgetState true =
      (DrainOutcome.waitAgain, { inBudgetState with linesToSend := [] },
        [Ev.lockAcquire, Ev.queueCleared, Ev.lockRelease] ++
          (if 0 < (String.join inBudgetState.linesToSend).utf8ByteSize then
            [Ev.connWrite (String.join inBudgetState.linesToSend)] else [])) :=
  C3_drain_writes_single_concatenated_payload inBudgetState rfl (by decide)
    (by decide)

/-- C4: when `closed` is true, `Write(data)` returns `io.EOF` and leaves
the pending-lines queue (indeed the whole state) unchanged, spawning no
wake; when `closed` is false, it returns no error and appends `data`
verbatim as the last element of the queue, then spawns the 15s bounded
wake attempt. -/
theorem C4_write_closed_rejects_open_appends (s : SocketState) (data : String) :
    (s.closed = true → socketWrite s data = (some RErr.eof, s, [])) ∧
    (s.closed = false →
      socketWrite s data =
        (none, { s with linesToSend := s.linesToSend ++ [data] }, [15000])) := by
  constructor
  · intro h
    simp [socketWrite, h]
  · intro h
    simp [socketWrite, h]

/-- C4 witness: the two branches at concrete states — a fresh socket (open)
and a closed socket. -/
theorem C4_write_closed_rejects_open_appends_witness :
    ({ newSocket 32 with closed := true } : SocketState).closed = true ∧
    socketWrite { newSocket 32 with closed := true } "x" =
      (some RErr.eof, { newSocket 32 with closed := true }, []) ∧
    (newSocket 32).closed = false ∧
    socketWrite (newSocket 32) "x" =
      (none, { newSocket 32 with linesToSend := ["x"] }, [15000]) := by
  refine ⟨rfl, ?_, rfl, ?_⟩
  · exact (C4_write_closed_rejects_open_appends
      { newSocket 32 with closed := true } "x").1 rfl
  · exact (C4_write_closed_rejects_open_appends (newSocket 32) "x").2 rfl

/-- C5 counterexample: a `Read` on an open socket that observes
end-of-stream with the non-empty residual `" "` (a single space, so
`TrimSpace` of it is empty) does not return the residual with no error —
it returns the `io.EOF` error, because line 105 demands
`strings.TrimSpace(line) != ""`, not a non-empty residual. -/
theorem C5_counterexample_blank_residual_errors :
    ¬ ((socketRead (newSocket 1024) " " (some RErr.eof)).1).2 = none := by
  decide

/-- C5 (amended): for every `Read` call on an open socket that observes
end-of-stream with a residual that is non-empty after whitespace trimming
(`TrimSpace(line) != ""`), the residual is returned as a valid line with
trailing CR/LF stripped and no error, and the socket is marked closed. -/
theorem C5_eof_grace_returns_residual (s : SocketState) (lineBytes : String)
    (h1 : s.closed = false) (h2 : goTrimSpace lineBytes ≠ "") :
    socketRead s lineBytes (some RErr.eof) =
      ((goTrimRight lineBytes, none), { s with closed := true }) := by
  simp [socketRead, socketClose, h1, h2]

/-- C5 witness: end-of-stream with residual `"PING\r"` on a fresh socket
returns `("PING", no error)` and closes the socket. -/
theorem C5_eof_grace_returns_residual_witness :
    goTrimSpace "PING\r" ≠ "" ∧
    socketRead (newSocket 1024) "PING\r" (some RErr.eof) =
      (("PING", none), { newSocket 1024 with closed := true }) := by
  refine ⟨by decide, ?_⟩
  have h := C5_eof_grace_returns_residual (newSocket 1024) "PING\r" rfl
    (by decide)
  rw [h]
  decide

/-- C6 counterexample: on the stream whose entire content is `"PING\n"`
followed by end-of-stream, the first `Read` returns `("PING", no error)`
but the socket is NOT closed after that first call — the line was
`'\n'`-terminated, so `ReadBytes` reported no error and `Close()` was
never invoked. -/
theorem C6_counterexample_open_after_first_read :
    (socketReadStream (newSocket 1024) "PING\n").1 = ("PING", none) ∧
    ¬ (socketReadStream (newSocket 1024) "PING\n").2.1.closed = true := by
  refine ⟨by decide, by decide⟩

/-- C6 (amended): on the stream `"PING\n"` followed by end-of-stream, the
first `Read` returns `"PING"` with no error, the next `Read` returns the
end-of-stream error, and the socket becomes closed after that second call
(not after the first). -/
theorem C6_ping_newline_stream_reads :
    (socketReadStream (newSocket 1024) "PING\n").1 = ("PING", none) ∧
    (socketReadStream (newSocket 1024) "PING\n").2.1.closed = false ∧
    (socketReadStream (socketReadStream (newSocket 1024) "PING\n").2.1
        (socketReadStream (newSocket 1024) "PING\n").2.2).1 =
      ("", some RErr.eof) ∧
    (socketReadStream (socketReadStream (newSocket 1024) "PING\n").2.1
        (socketReadStream (newSocket 1024) "PING\n").2.2).2.1.closed = true := by
  refine ⟨by decide, by decide, by decide, by decide⟩

/-- Errors of `CertFP` (lines 22-23 and the handshake failure): the
not-a-TLS-connection error, a handshake failure (propagated verbatim,
carried as its message), and the no-client-certificate error. -/
inductive CertErr
  | notTLS
  | handshakeFailed (msg : String)
  | noPeerCerts
deriving DecidableEq, Repr

/-- The underlying `net.Conn` as seen by `CertFP`'s type assertion
(line 64): either not TLS, or a TLS connection with the outcome of
`Handshake()` and the peer certificate chain (each certificate is its raw
DER byte list, with each byte below 256). -/
inductive ConnModel
  | plain
  | tls (handshakeErr : Option String) (peerCerts : List (List Nat))
deriving DecidableEq, Repr

/-- The digit table of `encoding/hex` (`"0123456789abcdef"`). -/
def hexTableChars : List Char := "0123456789abcdef".data

/-- One hex digit: `hextable[n]` (all arguments produced by `hexEncodeList`
on genuine bytes are below 16). -/
def hexChar (n : Nat) : Char := hexTableChars.getD n '0'

/-- `hex.EncodeToString` on a byte list: for each byte, the high nibble
digit (`v >> 4`) then the low nibble digit (`v & 0x0f`), in input order. -/
def hexEncodeList : List Nat → List Char
  | [] => []
  | b :: bs => hexChar (b / 16) :: hexChar (b % 16) :: hexEncodeList bs

/-- `hex.EncodeToString` packaged as a `String`. -/
def hexEncode (bs : List Nat) : String := ⟨hexEncodeList bs⟩

/-- `CertFP()` (lines 63-87), with the SHA-256 digest of the external
`crypto/sha256` library abstracted as the function argument `sha256Sum`
(the real one maps any byte list to its 32-byte digest): non-TLS streams
fail with `errNotTLS`; the 5s deadline is set, `Handshake()` runs, the
deadline is cleared, and a handshake error is returned as-is; an empty
peer-certificate chain fails with `errNoPeerCerts`; otherwise the result
is the hex encoding of the digest of the leaf certificate's raw bytes. -/
def certFP (conn : ConnModel) (sha256Sum : List Nat → List Nat) :
    String × Option CertErr :=
  match conn with
  | ConnModel.plain => ("", some CertErr.notTLS)
  | ConnModel.tls (some msg) _ => ("", some (CertErr.handshakeFailed msg))
  | ConnModel.tls none [] => ("", some CertErr.noPeerCerts)
  | ConnModel.tls none (c :: _) => (hexEncode (sha256Sum c), none)

/-- Two hex digits per byte. -/
theorem hexEncodeList_length (bs : List Nat) :
    (hexEncodeList bs).length = 2 * bs.length := by
  induction bs with
  | nil => simp [hexEncodeList]
  | cons b bs ih =>
    simp [hexEncodeList, ih]
    omega

/-- Every emitted digit is one of the sixteen lowercase hex digits. -/
theorem hexChar_mem_table (n : Nat) : hexChar n ∈ hexTableChars := by
  by_cases h : n < 16
  · interval_cases n <;> decide
  · have h16 : hexTableChars.length ≤ n := by
      have : hexTableChars.length = 16 := by decide
      omega
    rw [hexChar, List.getD_eq_default _ _ h16]
    decide

/-- Every character of an encoded byte list is a lowercase hex digit. -/
theorem hexEncodeList_mem_table (bs : List Nat) :
    ∀ ch ∈ hexEncodeList bs, ch ∈ hexTableChars := by
  induction bs with
  | nil => simp [hexEncodeList]
  | cons b bs ih =>
    intro ch hch
    simp only [hexEncodeList, List.mem_cons] at hch
    rcases hch with h | h | h
    · exact h ▸ hexChar_mem_table _
    · exact h ▸ hexChar_mem_table _
    · exact ih ch h

/-- C7: `CertFP` returns the not-secure-connection error (and no
fingerprint) on a non-TLS stream; returns the handshake error verbatim
when the handshake fails; returns the no-client-certificate error when the
handshake succeeds with an empty peer chain; and otherwise returns, with
no error, the 64-character lowercase-hex SHA-256 digest of the leaf
certificate's raw DER bytes. -/
theorem C7_certfp_branches (digest : List Nat → List Nat) :
    certFP ConnModel.plain digest = ("", some CertErr.notTLS) ∧
    (∀ msg certs, certFP (ConnModel.tls (some msg) certs) digest =
      ("", some (CertErr.handshakeFailed msg))) ∧
    certFP (ConnModel.tls none []) digest = ("", some CertErr.noPeerCerts) ∧
    (∀ c rest, (digest c).length = 32 →
      certFP (ConnModel.tls none (c :: rest)) digest =
        (hexEncode (digest c), none) ∧
      (hexEncode (digest c)).length = 64 ∧
      ∀ ch ∈ (hexEncode (digest c)).data, ch ∈ hexTableChars) := by
  refine ⟨rfl, fun msg certs => rfl, rfl, fun c rest h32 => ⟨rfl, ?_, ?_⟩⟩
  · show (hexEncodeList (digest c)).length = 64
    rw [hexEncodeList_length, h32]
  · exact hexEncodeList_mem_table (digest c)

/-- A stand-in digest for the witness: every input maps to 32 zero bytes. -/
def zeroDigest : List Nat → List Nat := fun _ => List.replicate 32 0

/-- C7 witness: the success branch at a concrete TLS connection whose peer
presents the raw certificate `[1, 2, 3]`, under the 32-byte stand-in
digest. -/
theorem C7_certfp_branches_witness :
    (zeroDigest [1, 2, 3]).length = 32 ∧
    certFP (ConnModel.tls none [[1, 2, 3]]) zeroDigest =
      (hexEncode (zeroDigest [1, 2, 3]), none) ∧
    (hexEncode (zeroDigest [1, 2, 3])).length = 64 ∧
    (∀ ch ∈ (hexEncode (zeroDigest [1, 2, 3])).data, ch ∈ hexTableChars) := by
  refine ⟨by decide, ?_⟩
  exact (C7_certfp_branches zeroDigest).2.2.2 [1, 2, 3] [] (by decide)

/-- C8: `Close` is idempotent — a no-op (no state change, no wake) when
already closed; when open it only sets `closed` and spawns the 200ms
bounded wake attempt; a second call has no further observable effect and
spawns nothing; and it never releases the underlying connection nor
touches the queue or `FinalData`. -/
theorem C8_close_idempotent (s : SocketState) :
    (s.closed = true → socketClose s = (s, [])) ∧
    (s.closed = false →
      socketClose s = ({ s with closed := true }, [200])) ∧
    socketClose (socketClose s).1 = ((socketClose s).1, []) ∧
    (socketClose s).1.connClosed = s.connClosed ∧
    (socketClose s).1.linesToSend = s.linesToSend ∧
    (socketClose s).1.finalData = s.finalData := by
  cases h : s.closed
  · simp [socketClose, h]
  · simp [socketClose, h]

/-- C8 witness: closing a fresh socket, then closing again. -/
theorem C8_close_idempotent_witness :
    (newSocket 7).closed = false ∧
    socketClose (newSocket 7) = ({ newSocket 7 with closed := true }, [200]) ∧
    socketClose (socketClose (newSocket 7)).1 =
      ((socketClose (newSocket 7)).1, []) ∧
    (socketClose (newSocket 7)).1.connClosed = (newSocket 7).connClosed := by
  refine ⟨rfl, ?_, ?_, ?_⟩
  · exact (C8_close_idempotent (newSocket 7)).2.1 rfl
  · exact (C8_close_idempotent (newSocket 7)).2.2.1
  · exact (C8_close_idempotent (newSocket 7)).2.2.2.1

/-- C9: at writer-loop termination the teardown sets `closed`, writes
`FinalData` — when non-empty — to the stream before `conn.Close()` (the
write's error being discarded), and closes the connection exactly once;
the loop body itself never closes the connection, and neither `Write`,
`Close` nor `Read` ever does. -/
theorem C9_teardown_closes_connection_once (s : SocketState)
    (data lineBytes : String) (rerr : Option RErr) (writeOk : Bool) :
    (teardownStep s).1.closed = true ∧
    (teardownStep s).1.connClosed = true ∧
    (teardownStep s).2 =
      (if 0 < s.finalData.utf8ByteSize then [Ev.connWrite s.finalData]
        else []) ++ [Ev.connClose] ∧
    (teardownStep s).2.countP isConnClose = 1 ∧
    (drainStep s writeOk).2.2.countP isConnClose = 0 ∧
    (socketWrite s data).2.1.connClosed = s.connClosed ∧
    (socketClose s).1.connClosed = s.connClosed ∧
    (socketRead s lineBytes rerr).2.connClosed = s.connClosed := by
  refine ⟨rfl, rfl, rfl, ?_, ?_, ?_, ?_, ?_⟩
  · by_cases hf : 0 < s.finalData.utf8ByteSize <;>
      simp [teardownStep, hf, List.countP_append, List.countP_cons, isConnClose]
  · unfold drainStep
    split
    · rfl
    · split
      · rfl
      · split
        · rfl
        · dsimp only
          split
          · split
            · rfl
            · rfl
          · rfl
  · by_cases h : s.closed <;> simp [socketWrite, h]
  · by_cases h : s.closed <;> simp [socketClose, h]
  · rcases rerr with _ | e
    · by_cases h : s.closed <;> simp [socketRead, socketClose, h]
    · rcases e with _ | m <;>
        by_cases h : s.closed <;>
        first
          | (simp [socketRead, socketClose, h]; done)
          | (simp [socketRead, socketClose, h]; split <;> rfl)

/-- C10: a `Read` on an open socket whose underlying stream read fails
with an error other than end-of-stream returns that error as-is and leaves
the socket state unchanged (in particular it is not marked closed); a
successful read returns the line with trailing CR/LF stripped and no
error, also leaving the state unchanged. -/
theorem C10_read_error_passthrough (s : SocketState) (lineBytes msg : String)
    (h : s.closed = false) :
    socketRead s lineBytes (some (RErr.other msg)) =
      (("", some (RErr.other msg)), s) ∧
    socketRead s lineBytes none = ((goTrimRight lineBytes, none), s) := by
  constructor
  · simp [socketRead, h]
  · simp [socketRead, h]

/-- C10 witness: a "connection reset" error is passed through untouched on
a fresh socket, and a successful read of `"PING\r\n"` yields `"PING"`. -/
theorem C10_read_error_passthrough_witness :
    socketRead (newSocket 64) "partial" (some (RErr.other "connection reset")) =
      (("", some (RErr.other "connection reset")), newSocket 64) ∧
    socketRead (newSocket 64) "PING\r\n" none = (("PING", none), newSocket 64) := by
  constructor
  · exact (C10_read_error_passthrough (newSocket 64) "partial"
      "connection reset" rfl).1
  · rw [(C10_read_error_passthrough (newSocket 64) "PING\r\n" "" rfl).2]
    decide
